import Mathlib

/-!
Verification development for the `soft_check` soft-assertion library.

The definitions below are a shallow embedding of the Python sources:
  * `soft_check/check_log.py`        — the per-test failure log,
  * `soft_check/check_raises.py`     — the exception-expectation checker,
  * `soft_check/context_manager.py`  — the checked-block construct,
  * `soft_check/plugin.py`           — the pytest integration hooks.

Python module globals become fields of explicit state records, mutation
becomes state passing, and a raised `AssertionError` becomes an explicit
outcome value.  Python's `str.strip()` is rendered as `pyStrip`, dropping
ASCII whitespace from both ends of the character list.
-/

set_option autoImplicit false

namespace SoftCheck

/-- A fragment of Python's built-in exception class hierarchy, large enough
to cover the exception types the checkers manipulate:
`AssertionError`, `ValueError`, `TypeError`, `KeyError` all derive from
`Exception`, which derives from `BaseException`. -/
inductive ExcType where
  | baseException
  | exception
  | assertionError
  | valueError
  | typeError
  | keyError
deriving DecidableEq, Repr

/-- The method-resolution chain of each class in the modelled hierarchy,
the class itself first (Python's `issubclass` is reflexive). -/
def ExcType.ancestors : ExcType → List ExcType
  | .baseException => [.baseException]
  | .exception => [.exception, .baseException]
  | .assertionError => [.assertionError, .exception, .baseException]
  | .valueError => [.valueError, .exception, .baseException]
  | .typeError => [.typeError, .exception, .baseException]
  | .keyError => [.keyError, .exception, .baseException]

/-- Python `issubclass(a, b)` on the modelled hierarchy. -/
def issubclass (a b : ExcType) : Bool :=
  a.ancestors.contains b

/-- Python `issubclass(a, tup)` against a tuple of classes: true when `a`
is a subclass of any member. -/
def issubclassList (a : ExcType) (tup : List ExcType) : Bool :=
  tup.any (fun b => issubclass a b)

/-- Result of one call to `log_failure` (check_log.py lines 104-124):
either the call returns normally, or one of its `assert` statements
raises an `AssertionError` carrying the given message. -/
inductive LogOutcome where
  | ok
  | assertionError (msg : String)
deriving DecidableEq, Repr

/-- The mutable module state of `check_log.py`: the stored messages
(`_failures`), the failure counter (`_NUM_FAILURES`) and the three limit
globals (`_MAX_FAIL`, `_MAX_REPORT`, `_MAX_TB`).  The limits are Python
optional ints (`None` or an `int`). -/
structure LogState where
  failures : List String
  numFailures : Nat
  maxFail : Option Int
  maxReport : Option Int
  maxTb : Option Int
deriving DecidableEq, Repr

/-- The process-wide default limits of `check_log.py`
(`_DEFAULT_MAX_FAIL`, `_DEFAULT_MAX_REPORT`, `_DEFAULT_MAX_TB`). -/
structure LogDefaults where
  maxFail : Option Int
  maxReport : Option Int
  maxTb : Option Int
deriving DecidableEq, Repr

/-- `check_log.COLOR_RED`. -/
def COLOR_RED : String := "\x1b[31m"

/-- `check_log.COLOR_RESET`. -/
def COLOR_RESET : String := "\x1b[0m"

/-- Python's whitespace test for `str.strip()` on the ASCII range:
space, tab, newline, carriage return, vertical tab, form feed. -/
def isPySpace (c : Char) : Bool :=
  c == ' ' || c == '\t' || c == '\n' || c == '\r' || c == '\x0b' || c == '\x0c'

/-- Python's `str.strip()`: drop whitespace characters from both ends. -/
def pyStrip (s : String) : String :=
  ⟨((s.data.dropWhile isPySpace).reverse.dropWhile isPySpace).reverse⟩

/-- The display string built by `log_failure` (check_log.py lines 108-116):
strip the message, append `": " + check_str` when `check_str` is non-empty,
and wrap in red when color output is on. -/
def format_failure (color : Bool) (msg checkStr : String) : String :=
  let m := pyStrip msg
  let m := if checkStr = "" then m else m ++ ": " ++ checkStr
  if color then COLOR_RED ++ m ++ COLOR_RESET else m

/-- `check_log.log_failure` (lines 104-124).  Increments `_NUM_FAILURES`,
stores the formatted message when `_MAX_REPORT` is `None` or the new count
is within it, then raises `AssertionError("pytest-check max fail of N
reached")` when `_MAX_FAIL` is truthy (not `None` and non-zero) and the
count has reached it, else raises `AssertionError("Stopping on first
failure")` when `_STOP_ON_FAIL` is set.  The state mutations happen before
either `assert`, so the returned state is updated even on escalation.
`stop` is `check_log._STOP_ON_FAIL` and `color` is
`check_log.SHOULD_USE_COLOR`. -/
def log_failure (stop color : Bool) (st : LogState) (msg checkStr : String) :
    LogState × LogOutcome :=
  let n := st.numFailures + 1
  let stored : Bool :=
    match st.maxReport with
    | none => true
    | some r => decide ((n : Int) ≤ r)
  let st1 : LogState :=
    { st with
      numFailures := n
      failures :=
        if stored then st.failures ++ [format_failure color msg checkStr]
        else st.failures }
  let out : LogOutcome :=
    match st.maxFail with
    | some f =>
        if f ≠ 0 ∧ (n : Int) ≥ f then
          .assertionError ("pytest-check max fail of " ++ toString n ++ " reached")
        else if stop then .assertionError "Stopping on first failure"
        else .ok
    | none =>
        if stop then .assertionError "Stopping on first failure"
        else .ok
  (st1, out)

/-- `check_log.clear_failures` (lines 53-63): empty the stored failures,
zero the counter, and restore the three limits from the process-wide
defaults. -/
def clear_failures (d : LogDefaults) : LogState :=
  { failures := []
    numFailures := 0
    maxFail := d.maxFail
    maxReport := d.maxReport
    maxTb := d.maxTb }

/-- `check_log.get_failures` (lines 76-83). -/
def get_failures (st : LogState) : List String :=
  st.failures

/-- `check_log.any_failures` (lines 66-73): `bool(get_failures())`, i.e.
whether the stored message list is non-empty. -/
def any_failures (st : LogState) : Bool :=
  !(get_failures st).isEmpty

/-- The runner's drain step (plugin.py lines 26-27): read `get_failures()`
then `clear_failures()`. -/
def drain (d : LogDefaults) (st : LogState) : List String × LogState :=
  (get_failures st, clear_failures d)

/-- Run a sequence of `log_failure` calls, threading the log state
(each list element is the `(msg, check_str)` argument pair). -/
def run_log (stop color : Bool) (st : LogState) (ops : List (String × String)) :
    LogState :=
  ops.foldl (fun s p => (log_failure stop color s p.1 p.2).1) st

/-- The outcome of each call in a sequence of `log_failure` calls. -/
def run_log_outcomes (stop color : Bool) (st : LogState) :
    List (String × String) → List LogOutcome
  | [] => []
  | p :: rest =>
      let r := log_failure stop color st p.1 p.2
      r.2 :: run_log_outcomes stop color r.1 rest

/-- Whether any call in a sequence of `log_failure` calls raises. -/
def run_log_raises (stop color : Bool) (st : LogState) :
    List (String × String) → Bool
  | [] => false
  | p :: rest =>
      let r := log_failure stop color st p.1 p.2
      (match r.2 with
       | .ok => run_log_raises stop color r.1 rest
       | .assertionError _ => true)

/-- How control leaves a Python `with` block once `__exit__` has run:
the body finished without an exception (`normal`); the body's exception
was swallowed because `__exit__` returned a truthy value (`suppressed`);
the body's exception continues to propagate because `__exit__` returned a
falsy value (`propagated`); or `__exit__` itself raised a new
`AssertionError`, which replaces whatever was in flight (`raised`). -/
inductive ExitOutcome where
  | normal
  | suppressed
  | propagated (t : ExcType) (v : String)
  | raised (m : String)
deriving DecidableEq, Repr

/-- `check_raises.CheckRaisesContext` (lines 107-119): stores the expected
exception classes and the optional custom message; `__init__` performs no
validation.  A Python exception instance is modelled by the pair of its
class and the string `str(exc)` renders it to. -/
structure CheckRaisesContext where
  expected_excs : List ExcType
  msg : Option String
deriving DecidableEq, Repr

/-- The argument `self.msg if self.msg else exc_val` passed to
`log_failure` in `CheckRaisesContext.__exit__` (line 147): the custom
message when it is truthy (not `None` and not the empty string),
otherwise `str(exc_val)`; a missing exception renders as `"None"`. -/
def msg_or_exc (msg : Option String) (excStr : String) : String :=
  match msg with
  | some m => if m = "" then excStr else m
  | none => excStr

/-- `CheckRaisesContext.__exit__` (check_raises.py lines 130-149).
If an exception is active and its class is a subclass of one of
`self.expected_excs`, return `True` (suppress).  Otherwise, when
`check_raises._STOP_ON_FAIL` is falsy, call `log_failure` with the custom
message or the exception value and return `True`; when it is truthy,
return `False` (with an active exception this propagates it; with none,
nothing happens).  A `log_failure` escalation raised inside `__exit__`
replaces the in-flight exception.  `stopRaises` is
`check_raises._STOP_ON_FAIL`; `stopLog` and `color` are `check_log`'s
`_STOP_ON_FAIL` and `SHOULD_USE_COLOR`. -/
def CheckRaisesContext.exit (stopRaises stopLog color : Bool)
    (ctx : CheckRaisesContext) (exc : Option (ExcType × String))
    (st : LogState) : LogState × ExitOutcome :=
  match exc with
  | some (t, v) =>
      if issubclassList t ctx.expected_excs then (st, .suppressed)
      else if !stopRaises then
        let r := log_failure stopLog color st (msg_or_exc ctx.msg v) ""
        (r.1, match r.2 with
              | .ok => .suppressed
              | .assertionError m => .raised m)
      else (st, .propagated t v)
  | none =>
      if !stopRaises then
        let r := log_failure stopLog color st (msg_or_exc ctx.msg "None") ""
        (r.1, match r.2 with
              | .ok => .normal
              | .assertionError m => .raised m)
      else (st, .normal)

/-- A Python value handed to `raises` as an expected-exception entry:
an exception class from the modelled hierarchy, a class that is not an
exception class (for example `int`), or a value that is not a class at
all (for example `5`). -/
inductive PyArg where
  | excClass (e : ExcType)
  | otherClass
  | nonClass
deriving DecidableEq, Repr

/-- The kind of Python exception escaping `raises` during validation. -/
inductive PyError where
  | typeError
  | assertionError
deriving DecidableEq, Repr

/-- One evaluation of `isinstance(exc, type) or issubclass(exc,
BaseException)` inside the `all(...)` generator of `raises`
(check_raises.py lines 70-73).  `isinstance` is `true` for any class, so
the disjunction short-circuits to `True` for classes — exception classes
or not; for a non-class the second disjunct runs and `issubclass` raises
a `TypeError` because its first argument is not a class. -/
def elem_check : PyArg → Except PyError Bool
  | .excClass _ => .ok true
  | .otherClass => .ok true
  | .nonClass => .error .typeError

/-- Python's `all(...)` over the validation generator: short-circuits on
the first falsy result and propagates any exception the generator raises;
on the empty sequence it returns `True` vacuously. -/
def validate_expected : List PyArg → Except PyError Bool
  | [] => .ok true
  | a :: rest =>
      match elem_check a with
      | .error e => .error e
      | .ok true => validate_expected rest
      | .ok false => .ok false

/-- The argument of `raises`: either a single object or a tuple. -/
inductive RaisesArg where
  | single (a : PyArg)
  | tup (args : List PyArg)
deriving DecidableEq, Repr

/-- The eager validation performed by `raises` (check_raises.py lines
65-73): a single class argument is wrapped into a one-element tuple
(a single non-class falls into the tuple branch, where iterating it
raises a `TypeError`); then `assert all(isinstance(exc, type) or
issubclass(exc, BaseException) for exc in excepted_exceptions)` runs.
Returns the exception this raises, if any.  No failure-log interaction
occurs: the function does not touch any `LogState`. -/
def raises_validation : RaisesArg → Option PyError
  | .single (.excClass e) =>
      match validate_expected [.excClass e] with
      | .error err => some err
      | .ok true => none
      | .ok false => some .assertionError
  | .single .otherClass =>
      match validate_expected [.otherClass] with
      | .error err => some err
      | .ok true => none
      | .ok false => some .assertionError
  | .single .nonClass => some .typeError
  | .tup l =>
      match validate_expected l with
      | .error err => some err
      | .ok true => none
      | .ok false => some .assertionError

/-- Whether a `PyArg` is not a class at all. -/
def PyArg.isNonClass : PyArg → Bool
  | .nonClass => true
  | _ => false

/-- `context_manager.CheckContextManager` (lines 31-102): the handle's
only state is the pending custom message `self.msg`. -/
structure CheckContextManager where
  msg : Option String
deriving DecidableEq, Repr

/-- `CheckContextManager.__call__` (lines 91-102): store the message for
the next entry and return the handle. -/
def CheckContextManager.call (_c : CheckContextManager) (m : Option String) :
    CheckContextManager :=
  { msg := m }

/-- `CheckContextManager.__exit__` (context_manager.py lines 65-89).
When the active exception is an `AssertionError` subclass: if
`context_manager._STOP_ON_FAIL` is set, clear the message and return
`None` (the exception propagates); otherwise log the failure — the
pending message newline-joined with the exception text when the message
`is not None`, else the exception text alone — clear the message, and
return `True` (suppress).  Any other exit clears the message and returns
`None`.  A `log_failure` escalation raised inside `__exit__` replaces the
in-flight exception.  `stopCtx` is `context_manager._STOP_ON_FAIL`;
`stopLog` and `color` are `check_log`'s globals. -/
def CheckContextManager.exit (stopCtx stopLog color : Bool)
    (c : CheckContextManager) (exc : Option (ExcType × String))
    (st : LogState) : CheckContextManager × LogState × ExitOutcome :=
  match exc with
  | some (t, v) =>
      if issubclass t .assertionError then
        if stopCtx then ({ msg := none }, st, .propagated t v)
        else
          let m :=
            match c.msg with
            | some pm => pm ++ "\n" ++ v
            | none => v
          let r := log_failure stopLog color st m ""
          ({ msg := none }, r.1,
            match r.2 with
            | .ok => .suppressed
            | .assertionError am => .raised am)
      else ({ msg := none }, st, .propagated t v)
  | none => ({ msg := none }, st, .normal)

/-- The attribute state of the `check_log` module as the pytest plugin
sees it.  The uppercase fields are the globals declared in
`check_log.py` (lines 37-48) and read by `clear_failures` and
`log_failure`.  The lowercase fields model the distinct, freshly created
module attributes that `plugin.pytest_configure` assigns through the
lowercase names `should_use_color`, `_stop_on_fail`, `_default_max_fail`,
`_default_max_report`, `_default_max_tb` (plugin.py lines 58-82) —
Python attribute names are case-sensitive, so these writes do not touch
the uppercase globals, and no code reads the lowercase names
(`none` = the attribute does not exist yet). -/
structure CheckLogModule where
  SHOULD_USE_COLOR : Bool
  STOP_ON_FAIL : Bool
  DEFAULT_MAX_FAIL : Option Int
  DEFAULT_MAX_REPORT : Option Int
  DEFAULT_MAX_TB : Option Int
  lc_should_use_color : Option Bool
  lc_stop_on_fail : Option Bool
  lc_default_max_fail : Option (Option Int)
  lc_default_max_report : Option (Option Int)
  lc_default_max_tb : Option (Option Int)
deriving DecidableEq, Repr

/-- The module state of `check_log.py` right after import (lines 37-51):
color off, stop-on-fail off, all defaults `None`, and none of the
lowercase attributes exist. -/
def checkLogModuleAtImport : CheckLogModule :=
  { SHOULD_USE_COLOR := false
    STOP_ON_FAIL := false
    DEFAULT_MAX_FAIL := none
    DEFAULT_MAX_REPORT := none
    DEFAULT_MAX_TB := none
    lc_should_use_color := none
    lc_stop_on_fail := none
    lc_default_max_fail := none
    lc_default_max_report := none
    lc_default_max_tb := none }

/-- The effect of `plugin.pytest_configure` (plugin.py lines 45-82) on
the `check_log` module: it computes `stop_on_fail = (maxfail == 1)` and
the option values, but assigns them all through lowercase attribute
names, so only the lowercase attributes change; the uppercase globals
that `clear_failures` and `log_failure` actually read are left exactly
as they were.  `useColor` is the computed
`(isatty and color == "auto") or (color == "yes")`; `noTb` is
`--check-no-tb`, which overrides the traceback default with `0`. -/
def pytest_configure (maxfail : Int) (useColor : Bool)
    (optMaxFail optMaxReport optMaxTb : Option Int) (noTb : Bool)
    (m : CheckLogModule) : CheckLogModule :=
  let stop_on_fail := decide (maxfail = 1)
  { m with
    lc_should_use_color := some useColor
    lc_stop_on_fail := some stop_on_fail
    lc_default_max_fail := some optMaxFail
    lc_default_max_report := some optMaxReport
    lc_default_max_tb := some (if noTb then some 0 else optMaxTb) }

/-- The defaults record obtained from the uppercase `check_log` globals,
as `clear_failures` reads them. -/
def CheckLogModule.defaults (m : CheckLogModule) : LogDefaults :=
  { maxFail := m.DEFAULT_MAX_FAIL
    maxReport := m.DEFAULT_MAX_REPORT
    maxTb := m.DEFAULT_MAX_TB }

/-! ### Helper lemmas about `log_failure` and runs of it -/

theorem log_failure_fst_maxFail (stop color : Bool) (st : LogState)
    (msg checkStr : String) :
    (log_failure stop color st msg checkStr).1.maxFail = st.maxFail := rfl

theorem log_failure_fst_maxReport (stop color : Bool) (st : LogState)
    (msg checkStr : String) :
    (log_failure stop color st msg checkStr).1.maxReport = st.maxReport := rfl

theorem log_failure_fst_numFailures (stop color : Bool) (st : LogState)
    (msg checkStr : String) :
    (log_failure stop color st msg checkStr).1.numFailures =
      st.numFailures + 1 := rfl

/-- With `_MAX_FAIL` unset and `_STOP_ON_FAIL` clear, `log_failure`
returns normally. -/
theorem log_failure_snd_ok_of_maxFail_none (color : Bool) (st : LogState)
    (msg checkStr : String) (h : st.maxFail = none) :
    (log_failure false color st msg checkStr).2 = .ok := by
  simp [log_failure, h]

/-- With `_MAX_FAIL` set and not yet reached (and `_STOP_ON_FAIL` clear),
`log_failure` returns normally. -/
theorem log_failure_snd_ok_of_below (color : Bool) (st : LogState)
    (msg checkStr : String) (F : Int) (h : st.maxFail = some F)
    (hlt : ((st.numFailures + 1 : Nat) : Int) < F) :
    (log_failure false color st msg checkStr).2 = .ok := by
  simp [log_failure, h]
  intro _
  omega

/-- When `_MAX_FAIL` is truthy and the incremented counter reaches it,
`log_failure` raises the max-fail `AssertionError`. -/
theorem log_failure_snd_escalates (stop color : Bool) (st : LogState)
    (msg checkStr : String) (F : Int) (h : st.maxFail = some F)
    (hF : F ≠ 0) (hge : ((st.numFailures + 1 : Nat) : Int) ≥ F) :
    (log_failure stop color st msg checkStr).2 =
      .assertionError
        ("pytest-check max fail of " ++ toString (st.numFailures + 1) ++ " reached") := by
  simp [log_failure, h, hF, hge]
  intro hlt
  exfalso
  omega

/-- Closed form for a run of `log_failure` calls when `_MAX_REPORT` is
unset: every message is stored, in call order. -/
theorem run_log_maxReport_none (stop color : Bool)
    (ops : List (String × String)) :
    ∀ st : LogState, st.maxReport = none →
      run_log stop color st ops =
        { st with
          numFailures := st.numFailures + ops.length
          failures :=
            st.failures ++ ops.map (fun p => format_failure color p.1 p.2) } := by
  induction ops with
  | nil =>
      intro st _
      simp [run_log]
  | cons p rest ih =>
      intro st h
      have hstep : run_log stop color st (p :: rest) =
          run_log stop color ((log_failure stop color st p.1 p.2).1) rest := rfl
      rw [hstep, ih _ (by rw [log_failure_fst_maxReport, h])]
      simp [log_failure, h]
      omega

/-- Closed form for a run of `log_failure` calls when `_MAX_REPORT` is set
to `R`: only the first failures whose global index stays within `R` are
stored, still in call order; the counter always advances. -/
theorem run_log_maxReport_some (stop color : Bool)
    (ops : List (String × String)) :
    ∀ (st : LogState) (R : Int), st.maxReport = some R →
      run_log stop color st ops =
        { st with
          numFailures := st.numFailures + ops.length
          failures :=
            st.failures ++
              (ops.take (R - st.numFailures).toNat).map
                (fun p => format_failure color p.1 p.2) } := by
  induction ops with
  | nil =>
      intro st R _
      simp [run_log]
  | cons p rest ih =>
      intro st R h
      have hstep : run_log stop color st (p :: rest) =
          run_log stop color ((log_failure stop color st p.1 p.2).1) rest := rfl
      rw [hstep, ih _ R (by rw [log_failure_fst_maxReport, h])]
      by_cases hin : (st.numFailures : Int) + 1 ≤ R
      · have htake : (R - (st.numFailures : Int)).toNat =
            ((R - ((st.numFailures : Int) + 1)).toNat) + 1 := by omega
        simp [log_failure, h, hin, htake]
        omega
      · have h0 : (R - (st.numFailures : Int)).toNat = 0 := by omega
        have h0' : (R - ((st.numFailures : Int) + 1)).toNat = 0 := by omega
        simp [log_failure, h, hin, h0, h0']
        omega

/-- With `_MAX_FAIL` unset and `_STOP_ON_FAIL` clear, no call in a run of
`log_failure` calls ever raises. -/
theorem run_log_raises_eq_false (color : Bool) (ops : List (String × String)) :
    ∀ st : LogState, st.maxFail = none →
      run_log_raises false color st ops = false := by
  induction ops with
  | nil => intro st _; rfl
  | cons p rest ih =>
      intro st h
      have hok := log_failure_snd_ok_of_maxFail_none color st p.1 p.2 h
      simp only [run_log_raises, hok]
      exact ih _ (by rw [log_failure_fst_maxFail, h])

/-- With `_MAX_FAIL = F` strictly beyond the end of the run (and
`_STOP_ON_FAIL` clear), every call returns normally. -/
theorem run_log_outcomes_all_ok (color : Bool) (ops : List (String × String)) :
    ∀ (st : LogState) (F : Int), st.maxFail = some F →
      ((st.numFailures : Int) + ops.length < F) →
      run_log_outcomes false color st ops = List.replicate ops.length .ok := by
  induction ops with
  | nil => intro st F _ _; rfl
  | cons p rest ih =>
      intro st F h hlt
      have hok := log_failure_snd_ok_of_below color st p.1 p.2 F h (by
        simp only [List.length_cons] at hlt
        push_cast at hlt ⊢
        omega)
      simp only [run_log_outcomes, hok, List.length_cons, List.replicate_succ]
      refine congrArg _ (ih _ F (by rw [log_failure_fst_maxFail, h]) ?_)
      rw [log_failure_fst_numFailures]
      simp only [List.length_cons] at hlt
      push_cast at hlt ⊢
      omega

/-- With `_MAX_FAIL = F` reached exactly at the last call of the run (and
`_STOP_ON_FAIL` clear), every call but the last returns normally and the
last raises the max-fail `AssertionError`. -/
theorem run_log_outcomes_escalate (color : Bool) (ops : List (String × String))
    (hne : ops ≠ []) :
    ∀ (st : LogState) (F : Int), st.maxFail = some F → 1 ≤ F →
      ((st.numFailures : Int) + ops.length = F) →
      run_log_outcomes false color st ops =
        List.replicate (ops.length - 1) .ok ++
          [.assertionError
            ("pytest-check max fail of " ++
              toString (st.numFailures + ops.length) ++ " reached")] := by
  induction ops with
  | nil => exact absurd rfl hne
  | cons p rest ih =>
      intro st F h hF heq
      cases rest with
      | nil =>
          have hesc := log_failure_snd_escalates false color st p.1 p.2 F h
            (by omega) (by
              simp only [List.length_cons, List.length_nil] at heq
              push_cast at heq ⊢
              omega)
          simp [run_log_outcomes, hesc]
      | cons q rest' =>
          have hok := log_failure_snd_ok_of_below color st p.1 p.2 F h (by
            simp only [List.length_cons] at heq
            push_cast at heq ⊢
            omega)
          have ihr := ih (by simp) ((log_failure false color st p.1 p.2).1) F
            (by rw [log_failure_fst_maxFail, h])
            hF
            (by
              rw [log_failure_fst_numFailures]
              simp only [List.length_cons] at heq ⊢
              push_cast at heq ⊢
              omega)
          have hstep : run_log_outcomes false color st (p :: q :: rest') =
              (log_failure false color st p.1 p.2).2 ::
                run_log_outcomes false color
                  (log_failure false color st p.1 p.2).1 (q :: rest') := rfl
          rw [hstep, hok, ihr, log_failure_fst_numFailures]
          simp only [List.length_cons, Nat.add_sub_cancel]
          have hlen : st.numFailures + 1 + (rest'.length + 1) =
              st.numFailures + (rest'.length + 1 + 1) := by omega
          rw [hlen]
          simp [List.replicate_succ]

/-! ### Claims -/

/-- Counterexample to claim C1.  With `max_report = 0`, a recorded
failure is counted (`failure_count = 1 > 0`) but its message is not
stored, and `any_failures()` — implemented as `bool(get_failures())` —
returns `False`: a failure whose message the cap dropped does not make
`any_failures` return true, contrary to the claim. -/
theorem c1_any_failures_hidden_by_zero_cap :
    any_failures (log_failure false false (clear_failures ⟨none, some 0, none⟩) "boom" "").1
        = false ∧
      (log_failure false false (clear_failures ⟨none, some 0, none⟩) "boom" "").1.numFailures
        = 1 := by
  exact ⟨rfl, rfl⟩

/-- Claim C1, amended: `any_failures()` returns true iff at least one
message is stored (`bool(get_failures())`); whenever `max_report` is
unset or at least 1 this coincides with `failure_count > 0`, so failures
beyond a positive cap still make it return true — but with
`max_report ≤ 0` recorded failures leave it false. -/
theorem c1_any_failures_iff_failure_count (d : LogDefaults) (stop color : Bool)
    (ops : List (String × String))
    (hcap : d.maxReport = none ∨ ∃ R : Int, d.maxReport = some R ∧ 1 ≤ R) :
    (any_failures (run_log stop color (clear_failures d) ops) = true ↔
      0 < (run_log stop color (clear_failures d) ops).numFailures) := by
  rcases hcap with hnone | ⟨R, hsome, hR⟩
  · rw [run_log_maxReport_none stop color ops (clear_failures d)
      (by simp [clear_failures, hnone])]
    cases ops <;> simp [any_failures, get_failures, clear_failures]
  · rw [run_log_maxReport_some stop color ops (clear_failures d) R
      (by simp [clear_failures, hsome])]
    cases ops with
    | nil => simp [any_failures, get_failures, clear_failures]
    | cons p rest =>
        obtain ⟨k, hk⟩ : ∃ k, R.toNat = k + 1 := ⟨R.toNat - 1, by omega⟩
        simp [any_failures, get_failures, clear_failures, hk, List.take_succ_cons]

/-- Witness for the amended claim C1 at a concrete input. -/
theorem c1_any_failures_iff_failure_count_witness :
    ((some 1 : Option Int) = none ∨
        ∃ R : Int, (some 1 : Option Int) = some R ∧ 1 ≤ R) ∧
      (any_failures (run_log false false (clear_failures ⟨none, some 1, none⟩)
          [("a", "")]) = true ↔
        0 < (run_log false false (clear_failures ⟨none, some 1, none⟩)
          [("a", "")]).numFailures) :=
  ⟨Or.inr ⟨1, rfl, by decide⟩,
    c1_any_failures_iff_failure_count ⟨none, some 1, none⟩ false false [("a", "")]
      (Or.inr ⟨1, rfl, by decide⟩)⟩

/-- Claim C7: with `max_fail` set to `K ≥ 1` and `K` failures recorded in
one test (starting from a cleared log, stop-on-first-failure inactive),
the first `K - 1` calls to `log_failure` return normally and the `K`-th
raises the `AssertionError` whose message is
`pytest-check max fail of K reached`. -/
theorem c7_max_fail_escalates_on_kth (K : Nat) (hK : 1 ≤ K)
    (ops : List (String × String)) (hlen : ops.length = K) :
    run_log_outcomes false false (clear_failures ⟨some (K : Int), none, none⟩) ops =
      List.replicate (K - 1) .ok ++
        [.assertionError ("pytest-check max fail of " ++ toString K ++ " reached")] := by
  have hne : ops ≠ [] := by
    cases ops with
    | nil => simp at hlen; omega
    | cons q rest => simp
  have hrun := run_log_outcomes_escalate false ops hne
    (clear_failures ⟨some (K : Int), none, none⟩) (K : Int) rfl
    (by exact_mod_cast hK)
    (by simp [clear_failures, hlen])
  rw [hrun]
  simp [clear_failures, hlen]

/-- Witness for claim C7 at `K = 2`. -/
theorem c7_max_fail_escalates_on_kth_witness :
    1 ≤ 2 ∧ ([("a", ""), ("b", "")] : List (String × String)).length = 2 ∧
      run_log_outcomes false false
          (clear_failures ⟨some ((2 : Nat) : Int), none, none⟩)
          [("a", ""), ("b", "")] =
        List.replicate (2 - 1) .ok ++
          [.assertionError
            ("pytest-check max fail of " ++ toString (2 : Nat) ++ " reached")] :=
  ⟨by decide, rfl,
    c7_max_fail_escalates_on_kth 2 (by decide) [("a", ""), ("b", "")] rfl⟩

/-- Claim C8, amended: for a sequence of `N` failure-producing calls in
one test (no `max_fail`, stop-on-first-failure inactive): with
`max_report` unset, `drain` returns exactly the `N` formatted messages in
call order; with `max_report = R ≥ 1` set and `N > R`, `drain` returns
exactly the first `R` failures' messages while the internal counter
reflects `N` and `any_failures()` is true, and no call ever raises.
(The claim's `has_failures()` conjunct needs `R ≥ 1`: with
`max_report = 0` no message is stored and `any_failures()` is false —
see the counterexample.) -/
theorem c8_drain_report_cap (ops : List (String × String)) (R : Int)
    (hR : 1 ≤ R) (hN : R.toNat < ops.length) :
    (drain ⟨none, none, none⟩
        (run_log false false (clear_failures ⟨none, none, none⟩) ops)).1 =
      ops.map (fun p => format_failure false p.1 p.2) ∧
    (run_log false false (clear_failures ⟨none, none, none⟩) ops).numFailures
        = ops.length ∧
    (drain ⟨none, some R, none⟩
        (run_log false false (clear_failures ⟨none, some R, none⟩) ops)).1 =
      (ops.take R.toNat).map (fun p => format_failure false p.1 p.2) ∧
    (drain ⟨none, some R, none⟩
        (run_log false false (clear_failures ⟨none, some R, none⟩) ops)).1.length
        = R.toNat ∧
    (run_log false false (clear_failures ⟨none, some R, none⟩) ops).numFailures
        = ops.length ∧
    any_failures (run_log false false (clear_failures ⟨none, some R, none⟩) ops)
        = true ∧
    run_log_raises false false (clear_failures ⟨none, some R, none⟩) ops = false := by
  have hnone := run_log_maxReport_none false false ops
    (clear_failures ⟨none, none, none⟩) rfl
  have hsome := run_log_maxReport_some false false ops
    (clear_failures ⟨none, some R, none⟩) R rfl
  refine ⟨?_, ?_, ?_, ?_, ?_, ?_, ?_⟩
  · rw [drain, hnone]; simp [get_failures, clear_failures]
  · rw [hnone]; simp [clear_failures]
  · rw [drain, hsome]; simp [get_failures, clear_failures]
  · rw [drain, hsome]
    simp [get_failures, clear_failures, List.length_take]
    omega
  · rw [hsome]; simp [clear_failures]
  · rw [hsome]
    cases ops with
    | nil => simp at hN
    | cons p rest =>
        obtain ⟨k, hk⟩ : ∃ k, R.toNat = k + 1 := ⟨R.toNat - 1, by omega⟩
        simp [any_failures, get_failures, clear_failures, hk, List.take_succ_cons]
  · exact run_log_raises_eq_false false ops (clear_failures ⟨none, some R, none⟩) rfl

/-- Witness for the amended claim C8 at `R = 1` and three failures. -/
theorem c8_drain_report_cap_witness :
    (1 : Int) ≤ 1 ∧ (1 : Int).toNat < ([("a", ""), ("b", ""), ("c", "")] :
        List (String × String)).length ∧
      (drain ⟨none, none, none⟩
          (run_log false false (clear_failures ⟨none, none, none⟩)
            [("a", ""), ("b", ""), ("c", "")])).1 =
        ([("a", ""), ("b", ""), ("c", "")] :
          List (String × String)).map (fun p => format_failure false p.1 p.2) ∧
      (run_log false false (clear_failures ⟨none, some 1, none⟩)
          [("a", ""), ("b", ""), ("c", "")]).numFailures = 3 ∧
      any_failures (run_log false false (clear_failures ⟨none, some 1, none⟩)
          [("a", ""), ("b", ""), ("c", "")]) = true := by
  have h := c8_drain_report_cap [("a", ""), ("b", ""), ("c", "")] 1
    (by decide) (by decide)
  exact ⟨by decide, by decide, h.1, h.2.2.2.2.1, h.2.2.2.2.2.1⟩

/-- Counterexample to claim C8: with `max_report = 0` and `N = 2 > 0`
failures, the counter reflects 2 but `has_failures()` (`any_failures`)
returns `False`, contradicting the claim's assertion that it is true for
every set `max_report` with `N > max_report`. -/
theorem c8_zero_cap_counterexample :
    (run_log false false (clear_failures ⟨none, some 0, none⟩)
        [("x", ""), ("y", "")]).numFailures = 2 ∧
      any_failures (run_log false false (clear_failures ⟨none, some 0, none⟩)
        [("x", ""), ("y", "")]) = false := by
  exact ⟨rfl, rfl⟩

/-- Claim C10: when the `K`-th recorded failure triggers the `max_fail`
escalation, the log already reflects that failure at the moment the
`AssertionError` is raised: the counter has been incremented to `K`, and
(when `K` is within `max_report`) the `K`-th message has been appended
to the stored messages. -/
theorem c10_log_reflects_kth_failure (stop color : Bool) (st : LogState)
    (msg checkStr : String) (F : Int) (hmf : st.maxFail = some F) (hF : F ≠ 0)
    (hge : ((st.numFailures + 1 : Nat) : Int) ≥ F)
    (hcap : st.maxReport = none ∨
      ∃ R : Int, st.maxReport = some R ∧ ((st.numFailures + 1 : Nat) : Int) ≤ R) :
    (log_failure stop color st msg checkStr).1.numFailures = st.numFailures + 1 ∧
    (log_failure stop color st msg checkStr).1.failures =
      st.failures ++ [format_failure color msg checkStr] ∧
    (log_failure stop color st msg checkStr).2 =
      .assertionError
        ("pytest-check max fail of " ++ toString (st.numFailures + 1) ++ " reached") := by
  refine ⟨rfl, ?_, log_failure_snd_escalates stop color st msg checkStr F hmf hF hge⟩
  rcases hcap with h | ⟨R, hsome, hle⟩
  · simp [log_failure, h]
  · have hle' : (st.numFailures : Int) + 1 ≤ R := by push_cast at hle; omega
    simp [log_failure, hsome, hle']

/-- Witness for claim C10 at `K = 1` and `max_fail = 1`. -/
theorem c10_log_reflects_kth_failure_witness :
    (⟨[], 0, some 1, none, none⟩ : LogState).maxFail = some 1 ∧ (1 : Int) ≠ 0 ∧
      (((0 + 1 : Nat) : Int) ≥ 1) ∧
      ((log_failure false false ⟨[], 0, some 1, none, none⟩ "m" "").1.numFailures
          = 0 + 1 ∧
        (log_failure false false ⟨[], 0, some 1, none, none⟩ "m" "").1.failures =
          [] ++ [format_failure false "m" ""] ∧
        (log_failure false false ⟨[], 0, some 1, none, none⟩ "m" "").2 =
          .assertionError
            ("pytest-check max fail of " ++ toString (0 + 1) ++ " reached")) :=
  ⟨rfl, by decide, by decide,
    c10_log_reflects_kth_failure false false ⟨[], 0, some 1, none, none⟩ "m" "" 1
      rfl (by decide) (by decide) (Or.inl rfl)⟩

/-- Counterexample to claim C2.  With stop-on-first-failure inactive (the
default), an exception of an unexpected kind — `TypeError` raised where
`ValueError` was expected — does not propagate: `__exit__` logs it as a
soft failure and returns `True`, suppressing it. -/
theorem c2_unexpected_exception_swallowed :
    (CheckRaisesContext.exit false false false ⟨[.valueError], none⟩
        (some (.typeError, "boom")) (clear_failures ⟨none, none, none⟩)).2 =
      .suppressed ∧
    (CheckRaisesContext.exit false false false ⟨[.valueError], none⟩
        (some (.typeError, "boom")) (clear_failures ⟨none, none, none⟩)).1.failures =
      ["boom"] ∧
    (CheckRaisesContext.exit false false false ⟨[.valueError], none⟩
        (some (.typeError, "boom")) (clear_failures ⟨none, none, none⟩)).1.numFailures =
      1 := by
  exact ⟨rfl, rfl, rfl⟩

/-- Claim C2, amended: an exception of an expected kind (exact type or
subclass) is suppressed with no log entry; an exception of an unexpected
kind propagates unchanged only when `check_raises`' stop-on-first-failure
flag is active — otherwise it is recorded as a soft failure (under the
custom message when that is truthy, else the exception's text) and
suppressed. -/
theorem c2_check_raises_exit_with_exception (stopRaises : Bool)
    (exp : List ExcType) (msg : Option String) (t : ExcType) (v : String)
    (st : LogState) (hmf : st.maxFail = none) (hmr : st.maxReport = none) :
    CheckRaisesContext.exit stopRaises false false ⟨exp, msg⟩ (some (t, v)) st =
      if issubclassList t exp then (st, .suppressed)
      else if stopRaises then (st, .propagated t v)
      else
        ({ st with
            numFailures := st.numFailures + 1
            failures := st.failures ++ [pyStrip (msg_or_exc msg v)] },
          .suppressed) := by
  by_cases hsub : issubclassList t exp
  · simp [CheckRaisesContext.exit, hsub]
  · cases stopRaises with
    | false =>
        simp [CheckRaisesContext.exit, hsub, log_failure, hmf, hmr, format_failure]
    | true => simp [CheckRaisesContext.exit, hsub]

/-- Witness for the amended claim C2: an unexpected `KeyError` with the
stop flag active propagates unchanged. -/
theorem c2_check_raises_exit_with_exception_witness :
    (clear_failures ⟨none, none, none⟩).maxFail = none ∧
      (clear_failures ⟨none, none, none⟩).maxReport = none ∧
      CheckRaisesContext.exit true false false ⟨[.valueError], none⟩
          (some (.keyError, "k")) (clear_failures ⟨none, none, none⟩) =
        (clear_failures ⟨none, none, none⟩, .propagated .keyError "k") := by
  refine ⟨rfl, rfl, ?_⟩
  have h := c2_check_raises_exit_with_exception true [.valueError] none
    .keyError "k" (clear_failures ⟨none, none, none⟩) rfl rfl
  rw [h]
  decide

/-- Counterexample to claim C4.  `raises` raises no usage error for an
empty expectation tuple (`all` over an empty generator is vacuously
true) nor for a class that is not an exception type (`isinstance(exc,
type)` already short-circuits the check); both invocations pass
validation silently. -/
theorem c4_validation_accepts_empty_and_nonexception :
    raises_validation (.tup []) = none ∧
      raises_validation (.tup [.otherClass]) = none := by
  exact ⟨rfl, rfl⟩

/-- Helper: Python's `all(...)` over the validation generator errors out
exactly when some element is not a class at all. -/
theorem validate_expected_spec (l : List PyArg) :
    validate_expected l =
      if l.any PyArg.isNonClass then .error .typeError else .ok true := by
  induction l with
  | nil => rfl
  | cons a rest ih =>
      cases a <;> simp [validate_expected, elem_check, PyArg.isNonClass, ih]

/-- Claim C4, amended: the eager validation in `raises` raises an error —
a `TypeError` out of `issubclass`, not an `AssertionError` — exactly when
some expected-exception entry is not a class at all; an empty expectation
tuple passes vacuously and any class, exception type or not, is
accepted.  The validation never touches the failure log (it takes no log
state at all), so no violation becomes a soft failure. -/
theorem c4_raises_validation_spec (l : List PyArg) :
    raises_validation (.tup l) =
      if l.any PyArg.isNonClass then some .typeError else none := by
  have h := validate_expected_spec l
  by_cases hany : l.any PyArg.isNonClass
  · simp [raises_validation, h, hany]
  · simp [raises_validation, h, hany]

/-- Counterexample to claim C5.  With stop-on-first-failure active and no
exception raised in the scope, `__exit__` returns `False` while no
exception is in flight: nothing is raised, nothing is logged — the test
does not abort, contrary to the claim that a failure must be raised. -/
theorem c5_stop_on_fail_silently_ignores :
    CheckRaisesContext.exit true false false ⟨[.valueError], none⟩ none
        (clear_failures ⟨none, none, none⟩) =
      (clear_failures ⟨none, none, none⟩, .normal) := by
  rfl

/-- Claim C5, amended: when the scope exits with no exception and
stop-on-first-failure is inactive, exactly one failure is logged — the
custom message when it is truthy, otherwise the text `"None"` (the
string rendering of the absent exception value) — and execution
continues after the scope; when stop-on-first-failure is active, the
scope exits silently: nothing is logged and no failure is raised. -/
theorem c5_check_raises_exit_no_exception (stopRaises : Bool)
    (exp : List ExcType) (msg : Option String) (st : LogState)
    (hmf : st.maxFail = none) (hmr : st.maxReport = none) :
    CheckRaisesContext.exit stopRaises false false ⟨exp, msg⟩ none st =
      if stopRaises then (st, .normal)
      else
        ({ st with
            numFailures := st.numFailures + 1
            failures := st.failures ++ [pyStrip (msg_or_exc msg "None")] },
          .normal) := by
  cases stopRaises with
  | false => simp [CheckRaisesContext.exit, log_failure, hmf, hmr, format_failure]
  | true => simp [CheckRaisesContext.exit]

/-- Witness for the amended claim C5: with the stop flag clear and no
custom message, the scope logs the text `"None"` and execution goes on. -/
theorem c5_check_raises_exit_no_exception_witness :
    (clear_failures ⟨none, none, none⟩).maxFail = none ∧
      (clear_failures ⟨none, none, none⟩).maxReport = none ∧
      CheckRaisesContext.exit false false false ⟨[.valueError], none⟩ none
          (clear_failures ⟨none, none, none⟩) =
        (⟨["None"], 1, none, none, none⟩, .normal) := by
  refine ⟨rfl, rfl, ?_⟩
  have h := c5_check_raises_exit_no_exception false [.valueError] none
    (clear_failures ⟨none, none, none⟩) rfl rfl
  rw [h]
  decide

/-- Counterexample to claim C6.  With stop-on-first-failure inactive, a
`max_fail` escalation raised inside the body of a checked block is
caught by `CheckContextManager.__exit__`: with `max_fail = 1`, the first
check's escalation (`"pytest-check max fail of 1 reached"`) is re-logged
as an additional soft failure (the counter becomes 2) and a fresh
escalation (`"pytest-check max fail of 2 reached"`) replaces it — so the
construct does catch the escalation and does record it as an extra soft
failure, contrary to the claim. -/
theorem c6_escalation_caught_by_block :
    (log_failure false false (clear_failures ⟨some 1, none, none⟩)
        "check 1 == 2" "").2 =
      .assertionError "pytest-check max fail of 1 reached" ∧
    (CheckContextManager.exit false false false ⟨none⟩
        (some (.assertionError, "pytest-check max fail of 1 reached"))
        (log_failure false false (clear_failures ⟨some 1, none, none⟩)
          "check 1 == 2" "").1).2.1.numFailures = 2 ∧
    (CheckContextManager.exit false false false ⟨none⟩
        (some (.assertionError, "pytest-check max fail of 1 reached"))
        (log_failure false false (clear_failures ⟨some 1, none, none⟩)
          "check 1 == 2" "").1).2.2 =
      .raised "pytest-check max fail of 2 reached" := by
  refine ⟨by decide, by decide, by decide⟩

/-- Claim C6, amended: an escalating `AssertionError` propagates uncaught
through a checked block only when the construct's stop-on-first-failure
flag is active; when it is inactive the construct catches it like any
assertion failure, records it as an additional soft failure, and the
re-record — `max_fail` still being met — immediately re-escalates, so
the test still aborts, but through a fresh escalation and with an extra
failure recorded. -/
theorem c6_escalation_through_check_block (pending : Option String)
    (v : String) (st : LogState) (F : Int) (hmf : st.maxFail = some F)
    (hF : F ≠ 0) (hge : ((st.numFailures + 1 : Nat) : Int) ≥ F) :
    CheckContextManager.exit true false false ⟨pending⟩
        (some (.assertionError, v)) st =
      (⟨none⟩, st, .propagated .assertionError v) ∧
    (CheckContextManager.exit false false false ⟨pending⟩
        (some (.assertionError, v)) st).2.1.numFailures = st.numFailures + 1 ∧
    (CheckContextManager.exit false false false ⟨pending⟩
        (some (.assertionError, v)) st).2.2 =
      .raised
        ("pytest-check max fail of " ++ toString (st.numFailures + 1) ++ " reached") := by
  refine ⟨rfl, ?_, ?_⟩
  · cases pending <;> rfl
  · have hself : issubclass ExcType.assertionError ExcType.assertionError = true := rfl
    cases pending with
    | none =>
        have h := log_failure_snd_escalates false false st v "" F hmf hF hge
        simp [CheckContextManager.exit, h, hself]
    | some pm =>
        have h := log_failure_snd_escalates false false st (pm ++ "\n" ++ v) ""
          F hmf hF hge
        simp [CheckContextManager.exit, h, hself]

/-- Witness for the amended claim C6 at a concrete state one failure
short of `max_fail = 2`. -/
theorem c6_escalation_through_check_block_witness :
    (⟨["first"], 1, some 2, none, none⟩ : LogState).maxFail = some 2 ∧
      (2 : Int) ≠ 0 ∧ (((1 + 1 : Nat) : Int) ≥ 2) ∧
      (CheckContextManager.exit true false false ⟨none⟩
          (some (.assertionError, "boom")) ⟨["first"], 1, some 2, none, none⟩ =
        (⟨none⟩, ⟨["first"], 1, some 2, none, none⟩,
          .propagated .assertionError "boom") ∧
      (CheckContextManager.exit false false false ⟨none⟩
          (some (.assertionError, "boom"))
          ⟨["first"], 1, some 2, none, none⟩).2.1.numFailures = 1 + 1 ∧
      (CheckContextManager.exit false false false ⟨none⟩
          (some (.assertionError, "boom"))
          ⟨["first"], 1, some 2, none, none⟩).2.2 =
        .raised
          ("pytest-check max fail of " ++ toString (1 + 1) ++ " reached")) :=
  ⟨rfl, by decide, by decide,
    c6_escalation_through_check_block none "boom" ⟨["first"], 1, some 2, none, none⟩
      2 rfl (by decide) (by decide)⟩

/-- Claim C9: a checked block whose body raises nothing leaves the
failure log unchanged and clears the pending custom message; a body
raising an assertion-style failure with the construct's
stop-on-first-failure flag clear logs exactly one message — the pending
custom message (when one was set, empty or not) newline-joined with the
failure text, trimmed — suppresses the failure, and clears the message. -/
theorem c9_check_context_exit (stopCtx : Bool) (pending : Option String)
    (t : ExcType) (v : String) (st : LogState)
    (hsub : issubclass t .assertionError = true)
    (hmf : st.maxFail = none) (hmr : st.maxReport = none) :
    CheckContextManager.exit stopCtx false false ⟨pending⟩ none st =
      (⟨none⟩, st, .normal) ∧
    CheckContextManager.exit false false false ⟨pending⟩ (some (t, v)) st =
      (⟨none⟩,
        { st with
            numFailures := st.numFailures + 1
            failures := st.failures ++
              [pyStrip (match pending with
                | some pm => pm ++ "\n" ++ v
                | none => v)] },
        .suppressed) := by
  refine ⟨rfl, ?_⟩
  cases pending <;>
    simp [CheckContextManager.exit, hsub, log_failure, hmf, hmr, format_failure]

/-- Witness for claim C9 with a pending message and a concrete assertion
failure. -/
theorem c9_check_context_exit_witness :
    issubclass .assertionError .assertionError = true ∧
      (clear_failures ⟨none, none, none⟩).maxFail = none ∧
      (clear_failures ⟨none, none, none⟩).maxReport = none ∧
      CheckContextManager.exit true false false ⟨some "ctx"⟩ none
          (clear_failures ⟨none, none, none⟩) =
        (⟨none⟩, clear_failures ⟨none, none, none⟩, .normal) ∧
      CheckContextManager.exit false false false ⟨some "ctx"⟩
          (some (.assertionError, "assert text"))
          (clear_failures ⟨none, none, none⟩) =
        (⟨none⟩, ⟨["ctx\nassert text"], 1, none, none, none⟩, .suppressed) := by
  have h := c9_check_context_exit true (some "ctx") .assertionError "assert text"
    (clear_failures ⟨none, none, none⟩) rfl rfl rfl
  refine ⟨rfl, rfl, rfl, h.1, ?_⟩
  rw [h.2]
  decide

/-- Claim C3 (code bug, evaluated at the failing input): a run configured
with `--maxfail=1`, `--check-max-fail=2`, `--check-max-report=5`,
`--check-max-tb=3`.  `pytest_configure` computes `stop_on_fail = True`
and reads the options, but stores everything under lowercase attribute
names (`_stop_on_fail`, `_default_max_fail`, ...) that no code reads,
while `clear_failures` and `log_failure` read the uppercase globals
(`_STOP_ON_FAIL`, `_DEFAULT_MAX_FAIL`, ...), which keep their
import-time values.  Hence the reset restores `max_fail = None` and a
recorded failure does not escalate, contrary to the claim. -/
theorem c3_pytest_configure_seeds_nothing :
    (pytest_configure 1 false (some 2) (some 5) (some 3) false
        checkLogModuleAtImport).STOP_ON_FAIL = false ∧
    (pytest_configure 1 false (some 2) (some 5) (some 3) false
        checkLogModuleAtImport).DEFAULT_MAX_FAIL = none ∧
    (pytest_configure 1 false (some 2) (some 5) (some 3) false
        checkLogModuleAtImport).lc_stop_on_fail = some true ∧
    (pytest_configure 1 false (some 2) (some 5) (some 3) false
        checkLogModuleAtImport).lc_default_max_fail = some (some 2) ∧
    clear_failures (pytest_configure 1 false (some 2) (some 5) (some 3) false
        checkLogModuleAtImport).defaults = ⟨[], 0, none, none, none⟩ ∧
    (log_failure
        (pytest_configure 1 false (some 2) (some 5) (some 3) false
          checkLogModuleAtImport).STOP_ON_FAIL false
        (clear_failures (pytest_configure 1 false (some 2) (some 5) (some 3) false
          checkLogModuleAtImport).defaults)
        "check 1 == 2" "").2 = .ok := by
  exact ⟨rfl, rfl, rfl, rfl, rfl, rfl⟩

end SoftCheck
